import Mathlib

/-!
Verification of the announcements CRUD service
(`src/backend/routers/announcements.py`).

The Python module is shallowly embedded: the MongoDB collections become
lists, BSON `ObjectId` keys become their canonical 24-hex-character
renderings, `datetime.strptime("%Y-%m-%d")` becomes an executable date
parser, lexicographic string comparison (used both by Mongo's `$gte` on
date strings and by Python's `<=` on `str`) becomes a code-point
comparison on character lists, and FastAPI's request pipeline (missing
required header -> 422 validation error; the `verify_teacher` dependency
resolved before the body is validated; `pydantic` pattern / max-length
checks on the body -> 422) is made explicit in each endpoint function.
`HTTPException(status_code, detail)` becomes `ApiError.http status detail`.
-/

namespace AnnouncementsApi

/-- Error outcomes of a request.
`validation` is FastAPI/pydantic's `RequestValidationError` (HTTP 422),
`http s d` is `HTTPException(status_code=s, detail=d)`, and `internal`
is an uncaught Python exception surfacing as HTTP 500. -/
inductive ApiError where
  | validation
  | http (status : Nat) (detail : String)
  | internal
deriving DecidableEq

/-- The HTTP status code an `ApiError` is rendered with. -/
def ApiError.status : ApiError → Nat
  | .validation => 422
  | .http s _ => s
  | .internal => 500

/-- A BSON ObjectId, carried as its canonical lowercase 24-hex rendering
(`str(ObjectId(s)) = s.lower()`). -/
structure ObjectId where
  hex : String
deriving DecidableEq

/-- Is `c` one of `0-9a-fA-F`? -/
def isHexChar (c : Char) : Bool :=
  (48 ≤ c.toNat && c.toNat ≤ 57) || (97 ≤ c.toNat && c.toNat ≤ 102) ||
    (65 ≤ c.toNat && c.toNat ≤ 70)

/-- ASCII lowercasing of one character. -/
def charToLower (c : Char) : Char :=
  if 65 ≤ c.toNat && c.toNat ≤ 90 then Char.ofNat (c.toNat + 32) else c

/-- Python's `s.lower()` on the ASCII strings this API handles. -/
def strLower (s : String) : String := ⟨s.data.map charToLower⟩

/-- `bson.ObjectId(s)`: succeeds exactly on 24-character hex strings,
normalising to lowercase; raises `InvalidId` (here `none`) otherwise. -/
def ObjectId.parse (s : String) : Option ObjectId :=
  if s.length = 24 && s.data.all isHexChar then some ⟨strLower s⟩ else none

/-- Code-point lexicographic `≤` on character lists: Python's `<=` on
`str`, and Mongo's `$gte` comparison on strings (UTF-8 byte order and
code-point order agree). -/
def charListLe : List Char → List Char → Bool
  | [], _ => true
  | _ :: _, [] => false
  | a :: as, b :: bs =>
    if a.toNat < b.toNat then true
    else if b.toNat < a.toNat then false
    else charListLe as bs

/-- Lexicographic `s ≤ t` on strings, as Python and Mongo compare them. -/
def strLe (s t : String) : Bool := charListLe s.data t.data

theorem charListLe_total : ∀ as bs : List Char,
    charListLe as bs = true ∨ charListLe bs as = true
  | [], _ => .inl rfl
  | _ :: _, [] => .inr rfl
  | a :: as, b :: bs => by
    simp only [charListLe]
    rcases Nat.lt_trichotomy a.toNat b.toNat with h | h | h
    · left
      simp [h]
    · have h1 : ¬ a.toNat < b.toNat := by omega
      have h2 : ¬ b.toNat < a.toNat := by omega
      simp only [if_neg h1, if_neg h2]
      exact charListLe_total as bs
    · right
      simp [h]

theorem charListLe_trans : ∀ as bs cs : List Char,
    charListLe as bs = true → charListLe bs cs = true →
    charListLe as cs = true
  | [], _, _, _, _ => rfl
  | _ :: _, [], _, h1, _ => by simp [charListLe] at h1
  | _ :: _, _ :: _, [], _, h2 => by simp [charListLe] at h2
  | a :: as, b :: bs, c :: cs, h1, h2 => by
    simp only [charListLe] at h1 h2 ⊢
    rcases Nat.lt_trichotomy a.toNat b.toNat with hab | hab | hab
    · rcases Nat.lt_trichotomy b.toNat c.toNat with hbc | hbc | hbc
      · simp [show a.toNat < c.toNat by omega]
      · simp [show a.toNat < c.toNat by omega]
      · simp [show ¬ b.toNat < c.toNat by omega, hbc] at h2
    · simp only [if_neg (show ¬ a.toNat < b.toNat by omega),
        if_neg (show ¬ b.toNat < a.toNat by omega)] at h1
      rcases Nat.lt_trichotomy b.toNat c.toNat with hbc | hbc | hbc
      · simp [show a.toNat < c.toNat by omega]
      · simp only [if_neg (show ¬ b.toNat < c.toNat by omega),
          if_neg (show ¬ c.toNat < b.toNat by omega)] at h2
        simp only [if_neg (show ¬ a.toNat < c.toNat by omega),
          if_neg (show ¬ c.toNat < a.toNat by omega)]
        exact charListLe_trans as bs cs h1 h2
      · simp [show ¬ b.toNat < c.toNat by omega, hbc] at h2
    · simp [show ¬ a.toNat < b.toNat by omega, hab] at h1

/-- A proleptic-Gregorian calendar date, the result of a successful
`datetime.strptime(_, "%Y-%m-%d")`. -/
structure Date where
  y : Nat
  m : Nat
  d : Nat
deriving DecidableEq

/-- `datetime` comparison `a < b` restricted to dates. -/
def Date.lt (a b : Date) : Bool :=
  decide (a.y < b.y) ||
    (a.y == b.y && (decide (a.m < b.m) || (a.m == b.m && decide (a.d < b.d))))

/-- Gregorian leap-year rule, as `datetime` implements it. -/
def isLeapYear (y : Nat) : Bool := (y % 4 == 0 && y % 100 != 0) || y % 400 == 0

/-- Number of days of month `m` in year `y`. -/
def daysInMonth (y m : Nat) : Nat :=
  if m == 2 then (if isLeapYear y then 29 else 28)
  else if m == 4 || m == 6 || m == 9 || m == 11 then 30
  else 31

/-- The pydantic pattern `^\d{4}-\d{2}-\d{2}$`. -/
def matchesDatePattern (s : String) : Bool :=
  match s.data with
  | [y1, y2, y3, y4, h1, m1, m2, h2, d1, d2] =>
    y1.isDigit && y2.isDigit && y3.isDigit && y4.isDigit && h1 == '-' &&
      m1.isDigit && m2.isDigit && h2 == '-' && d1.isDigit && d2.isDigit
  | _ => false

/-- Numeric value of a decimal digit character. -/
def digitVal (c : Char) : Nat := c.toNat - 48

/-- The `(year, month, day)` fields read off a pattern-shaped string
(junk on other strings, which `parseDate` filters out first). -/
def dateFields (s : String) : Date :=
  match s.data with
  | [y1, y2, y3, y4, _, m1, m2, _, d1, d2] =>
    ⟨((digitVal y1 * 10 + digitVal y2) * 10 + digitVal y3) * 10 + digitVal y4,
      digitVal m1 * 10 + digitVal m2,
      digitVal d1 * 10 + digitVal d2⟩
  | _ => ⟨0, 0, 0⟩

/-- The range checks `datetime.strptime` performs: year in `1..9999`
(here: at least 1), month in `1..12`, day within the month. -/
def validDateTriple (dt : Date) : Bool :=
  decide (1 ≤ dt.y) && decide (1 ≤ dt.m) && decide (dt.m ≤ 12) &&
    decide (1 ≤ dt.d) && decide (dt.d ≤ daysInMonth dt.y dt.m)

/-- `datetime.strptime(s, "%Y-%m-%d")` on the pattern-shaped strings the
endpoints feed it: `some` date on success, `none` for a `ValueError`. -/
def parseDate (s : String) : Option Date :=
  if matchesDatePattern s then
    if validDateTriple (dateFields s) then some (dateFields s) else none
  else none

/-- A stored announcement document. The `start_date` field distinguishes
an absent field (`none`) from a field present with BSON null
(`some none`) and a field present with a string (`some (some s)`). -/
structure AnnouncementDoc where
  _id : ObjectId
  message : String
  start_date : Option (Option String)
  expiration_date : String
  created_by : String
  created_at : String
deriving DecidableEq

/-- Python's `doc.get "start_date"`: `None` both when the field is
absent and when it is null. -/
def fieldGet (f : Option (Option String)) : Option String := f.bind id

/-- The announcements collection, in natural (insertion) order. -/
abbrev Store := List AnnouncementDoc

/-- The teachers collection, as the list of its `_id` values. -/
abbrev TeacherDirectory := List String

/-- An announcement as rendered to the caller: `_id` stringified. -/
structure AnnouncementOut where
  _id : String
  message : String
  start_date : Option (Option String)
  expiration_date : String
  created_by : String
  created_at : String
deriving DecidableEq

/-- `announcement["_id"] = str(announcement["_id"])` before returning. -/
def renderDoc (d : AnnouncementDoc) : AnnouncementOut :=
  { _id := d._id.hex, message := d.message, start_date := d.start_date,
    expiration_date := d.expiration_date, created_by := d.created_by,
    created_at := d.created_at }

/-- Request body of `POST /announcements/` (class `AnnouncementCreate`). -/
structure AnnouncementCreate where
  message : String
  expiration_date : String
  start_date : Option String
deriving DecidableEq

/-- Request body of `PUT /announcements/{id}` (class `AnnouncementUpdate`). -/
structure AnnouncementUpdate where
  message : String
  expiration_date : String
  start_date : Option String
deriving DecidableEq

/-- The pydantic checks on a request body: `max_length=500` on
`message` and the `\d{4}-\d{2}-\d{2}` pattern on both date strings.
Failing them is a 422 before the endpoint body runs. -/
def validBody (message : String) (expiration_date : String)
    (start_date : Option String) : Bool :=
  decide (message.length ≤ 500) && matchesDatePattern expiration_date &&
    (match start_date with
     | none => true
     | some s => matchesDatePattern s)

/-- `verify_teacher`: `find_one({"_id": x_user_name})` against the
teachers collection; 401 when absent. -/
def verify_teacher (teachers : TeacherDirectory) (x_user_name : String) :
    Except ApiError String :=
  if x_user_name ∈ teachers then .ok x_user_name
  else .error (.http 401 "Unauthorized")

/-- `validate_dates`: parse the expiration date, then (when the start
date is a non-empty string) parse it and reject a start date strictly
after the expiration date. `strptime` failures surface as the 400
format error. -/
def validate_dates (expiration_date : String) (start_date : Option String) :
    Except ApiError Unit :=
  match parseDate expiration_date with
  | none => .error (.http 400 "Invalid date format. Use YYYY-MM-DD")
  | some expiration_datetime =>
    match start_date with
    | none => .ok ()
    | some sd =>
      if sd = "" then .ok ()
      else
        match parseDate sd with
        | none => .error (.http 400 "Invalid date format. Use YYYY-MM-DD")
        | some start_datetime =>
          if Date.lt expiration_datetime start_datetime then
            .error (.http 400 "Start date must be before expiration date")
          else .ok ()

/-- The in-Python filter of `GET /announcements/active`:
`if not start_date or start_date <= current_date`. -/
def startDateOk (a : AnnouncementDoc) (current_date : String) : Bool :=
  match fieldGet a.start_date with
  | none => true
  | some sd => sd == "" || strLe sd current_date

/-- `GET /announcements/active` (no authentication): the Mongo query
`{"expiration_date": {"$gte": current_date}}` followed by the Python
start-date filter, each kept announcement rendered. -/
def get_active_announcements (store : Store) (current_date : String) :
    List AnnouncementOut :=
  ((store.filter fun a => strLe current_date a.expiration_date).filter
      fun a => startDateOk a current_date).map renderDoc

/-- Mongo's `sort("created_at", -1)` order: descending `created_at`. -/
def createdAtDesc (a b : AnnouncementDoc) : Prop :=
  strLe b.created_at a.created_at = true

instance : DecidableRel createdAtDesc :=
  fun _ _ => inferInstanceAs (Decidable (_ = true))

instance : IsTotal AnnouncementDoc createdAtDesc :=
  ⟨fun a b => charListLe_total b.created_at.data a.created_at.data⟩

instance : IsTrans AnnouncementDoc createdAtDesc :=
  ⟨fun a b c h1 h2 =>
    charListLe_trans c.created_at.data b.created_at.data a.created_at.data
      h2 h1⟩

/-- `GET /announcements/all`: requires the `X-User-Name` header (absent
-> 422) and a known teacher (else 401); returns the whole collection
sorted by `created_at` descending, rendered. -/
def get_all_announcements (teachers : TeacherDirectory) (store : Store)
    (x_user_name : Option String) : Except ApiError (List AnnouncementOut) :=
  match x_user_name with
  | none => .error .validation
  | some u =>
    match verify_teacher teachers u with
    | .error e => .error e
    | .ok _ => .ok ((List.insertionSort createdAtDesc store).map renderDoc)

/-- `POST /announcements/`: header presence, `verify_teacher`, pydantic
body checks, `validate_dates`, then one insert. `newId` is the ObjectId
the store assigns, `now` the server's `datetime.now().isoformat()`. -/
def create_announcement (teachers : TeacherDirectory) (store : Store)
    (x_user_name : Option String) (announcement_data : AnnouncementCreate)
    (newId : ObjectId) (now : String) :
    Except ApiError AnnouncementOut × Store :=
  match x_user_name with
  | none => (.error .validation, store)
  | some u =>
    match verify_teacher teachers u with
    | .error e => (.error e, store)
    | .ok username =>
      if validBody announcement_data.message announcement_data.expiration_date
          announcement_data.start_date then
        match validate_dates announcement_data.expiration_date
            announcement_data.start_date with
        | .error e => (.error e, store)
        | .ok _ =>
          let announcement : AnnouncementDoc :=
            { _id := newId,
              message := announcement_data.message,
              start_date := some announcement_data.start_date,
              expiration_date := announcement_data.expiration_date,
              created_by := username,
              created_at := now }
          (.ok (renderDoc announcement), store ++ [announcement])
      else (.error .validation, store)

/-- The `$set` document of `update_announcement`: overwrite `message`,
`start_date`, `expiration_date`, leave every other field alone. -/
def applySet (announcement_data : AnnouncementUpdate) (d : AnnouncementDoc) :
    AnnouncementDoc :=
  { d with message := announcement_data.message,
           start_date := some announcement_data.start_date,
           expiration_date := announcement_data.expiration_date }

/-- Mongo `update_one({"_id": oid}, {"$set": ...})`: rewrite the first
matching document, leave the rest of the collection unchanged. -/
def updateFirst (store : Store) (oid : ObjectId)
    (f : AnnouncementDoc → AnnouncementDoc) : Store :=
  match store with
  | [] => []
  | d :: ds => if d._id == oid then f d :: ds else d :: updateFirst ds oid f

/-- Mongo `delete_one({"_id": oid})`: remove the first matching
document, if any. -/
def deleteFirst (store : Store) (oid : ObjectId) : Store :=
  match store with
  | [] => []
  | d :: ds => if d._id == oid then ds else d :: deleteFirst ds oid

/-- `PUT /announcements/{announcement_id}`: header presence,
`verify_teacher`, pydantic body checks, `validate_dates`, ObjectId
parse (400 on failure), existence check (404), then `$set` and
re-fetch. The unreachable re-fetch miss is Python's `TypeError` on
`updated["_id"]`, an uncaught exception (500). -/
def update_announcement (teachers : TeacherDirectory) (store : Store)
    (announcement_id : String) (x_user_name : Option String)
    (announcement_data : AnnouncementUpdate) :
    Except ApiError AnnouncementOut × Store :=
  match x_user_name with
  | none => (.error .validation, store)
  | some u =>
    match verify_teacher teachers u with
    | .error e => (.error e, store)
    | .ok _ =>
      if validBody announcement_data.message announcement_data.expiration_date
          announcement_data.start_date then
        match validate_dates announcement_data.expiration_date
            announcement_data.start_date with
        | .error e => (.error e, store)
        | .ok _ =>
          match ObjectId.parse announcement_id with
          | none => (.error (.http 400 "Invalid announcement ID"), store)
          | some obj_id =>
            match store.find? (fun d => d._id == obj_id) with
            | none => (.error (.http 404 "Announcement not found"), store)
            | some _ =>
              match (updateFirst store obj_id
                  (applySet announcement_data)).find?
                  (fun d => d._id == obj_id) with
              | none =>
                (.error .internal,
                  updateFirst store obj_id (applySet announcement_data))
              | some updated =>
                (.ok (renderDoc updated),
                  updateFirst store obj_id (applySet announcement_data))
      else (.error .validation, store)

/-- `DELETE /announcements/{announcement_id}`: header presence,
`verify_teacher`, ObjectId parse (400 on failure), `delete_one`; a zero
`deleted_count` is a 404. -/
def delete_announcement (teachers : TeacherDirectory) (store : Store)
    (announcement_id : String) (x_user_name : Option String) :
    Except ApiError String × Store :=
  match x_user_name with
  | none => (.error .validation, store)
  | some u =>
    match verify_teacher teachers u with
    | .error e => (.error e, store)
    | .ok _ =>
      match ObjectId.parse announcement_id with
      | none => (.error (.http 400 "Invalid announcement ID"), store)
      | some obj_id =>
        if store.any (fun d => d._id == obj_id) then
          (.ok "Announcement deleted successfully", deleteFirst store obj_id)
        else (.error (.http 404 "Announcement not found"), store)

end AnnouncementsApi

namespace AnnouncementsApi

theorem strLe_empty (t : String) : strLe "" t = true := rfl

theorem parseDate_pattern {s : String} {dt : Date} (h : parseDate s = some dt) :
    matchesDatePattern s = true := by
  unfold parseDate at h
  split at h
  · assumption
  · exact absurd h (by simp)

theorem pattern_ne_empty {s : String} (h : matchesDatePattern s = true) :
    s ≠ "" := by
  intro he
  rw [he] at h
  exact absurd h (by decide)

theorem renderDoc_inj {a b : AnnouncementDoc} (h : renderDoc a = renderDoc b) :
    a = b := by
  cases a with
  | mk ida ma sa ea ca ta =>
    cases b with
    | mk idb mb sb eb cb tb =>
      cases ida
      cases idb
      simp_all [renderDoc]

theorem mem_active_iff {a : AnnouncementDoc} {store : Store} {D : String}
    (ha : a ∈ store) :
    renderDoc a ∈ get_active_announcements store D ↔
      (strLe D a.expiration_date = true ∧ startDateOk a D = true) := by
  simp only [get_active_announcements, List.mem_map, List.mem_filter]
  constructor
  · rintro ⟨x, ⟨⟨_, hexp⟩, hstart⟩, hrender⟩
    cases renderDoc_inj hrender
    exact ⟨hexp, hstart⟩
  · rintro ⟨hexp, hstart⟩
    exact ⟨a, ⟨⟨ha, hexp⟩, hstart⟩, rfl⟩

theorem startDateOk_iff (a : AnnouncementDoc) (D : String) :
    startDateOk a D = true ↔
      (fieldGet a.start_date = none ∨
        ∃ s, fieldGet a.start_date = some s ∧ strLe s D = true) := by
  cases h : fieldGet a.start_date with
  | none => simp [startDateOk, h]
  | some sd =>
    simp only [startDateOk, h]
    constructor
    · intro h'
      right
      rcases Bool.or_eq_true_iff.mp h' with h'' | h''
      · refine ⟨sd, rfl, ?_⟩
        rw [beq_iff_eq] at h''
        rw [h'']
        exact strLe_empty D
      · exact ⟨sd, rfl, h''⟩
    · rintro (h' | ⟨s, hs, hle⟩)
      · exact absurd h' (by simp)
      · rw [Option.some.injEq] at hs
        cases hs
        simp [hle]

/-- Claim C1: for every announcement `a` in the store and (current) date
`D`, `a` appears in the unauthenticated active listing iff
`a.expiration_date ≥ D` and (`a.start_date` is absent or
`a.start_date ≤ D`), both bounds inclusive, dates compared as the code
compares them (lexicographically on `YYYY-MM-DD` strings). -/
theorem C1_active_listing_iff (store : Store) (D : String)
    (a : AnnouncementDoc) (ha : a ∈ store) :
    renderDoc a ∈ get_active_announcements store D ↔
      (strLe D a.expiration_date = true ∧
        (fieldGet a.start_date = none ∨
          ∃ s, fieldGet a.start_date = some s ∧ strLe s D = true)) := by
  rw [mem_active_iff ha, startDateOk_iff]

end AnnouncementsApi

namespace AnnouncementsApi

theorem validate_dates_error_400 {e : String} {sd : Option String}
    {err : ApiError} (h : validate_dates e sd = .error err) :
    ∃ d, err = ApiError.http 400 d := by
  unfold validate_dates at h
  repeat' split at h
  all_goals simp_all
  all_goals exact ⟨_, h.symm⟩

/-- Claim C2, counterexample: a create request with `start_date` strictly
after `expiration_date` from a caller who is not a known teacher fails
with `Unauthorized` (status 401), not with `InvalidInput`. -/
theorem C2_counterexample :
    (create_announcement [] [] (some "eve")
        ⟨"m", "2030-01-01", some "2030-02-01"⟩
        ⟨"0123456789abcdef01234567"⟩ "t").1 =
      .error (.http 401 "Unauthorized") ∧
    (ApiError.http 401 "Unauthorized").status ≠ 400 :=
  ⟨rfl, by decide⟩

/-- Claim C2, amended: a create request whose dates are well-formed with
`start_date` strictly after `expiration_date` fails with `InvalidInput`
when the caller is a known teacher; for any caller identity (absent or
unknown included) it never succeeds and never stores a record. -/
theorem C2_amended (teachers : TeacherDirectory) (store : Store) (u : String)
    (body : AnnouncementCreate) (newId : ObjectId) (now : String)
    (ss : String) (de ds : Date)
    (hmem : u ∈ teachers)
    (hmsg : body.message.length ≤ 500)
    (hs : body.start_date = some ss)
    (hexp : parseDate body.expiration_date = some de)
    (hst : parseDate ss = some ds)
    (hlt : Date.lt de ds = true) :
    create_announcement teachers store (some u) body newId now =
      (.error (.http 400 "Start date must be before expiration date"),
        store) ∧
    ∀ h : Option String, ∃ e,
      create_announcement teachers store h body newId now =
        (.error e, store) := by
  have hpat : matchesDatePattern body.expiration_date = true :=
    parseDate_pattern hexp
  have hpats : matchesDatePattern ss = true := parseDate_pattern hst
  have hvb : validBody body.message body.expiration_date body.start_date
      = true := by
    simp [validBody, hmsg, hpat, hs, hpats]
  have hvd : validate_dates body.expiration_date body.start_date =
      .error (.http 400 "Start date must be before expiration date") := by
    simp [validate_dates, hexp, hs, hst, pattern_ne_empty hpats, hlt]
  have key : ∀ v ∈ teachers,
      create_announcement teachers store (some v) body newId now =
        (.error (.http 400 "Start date must be before expiration date"),
          store) := by
    intro v hv
    simp [create_announcement, verify_teacher, if_pos hv, hvb, hvd]
  refine ⟨key u hmem, ?_⟩
  intro h
  match h with
  | none => exact ⟨.validation, rfl⟩
  | some v =>
    by_cases hv : v ∈ teachers
    · exact ⟨_, key v hv⟩
    · exact ⟨.http 401 "Unauthorized",
        by simp [create_announcement, verify_teacher, if_neg hv]⟩

theorem C2_amended_witness :
    ("alice" : String) ∈ ["alice"] ∧
    (("m" : String).length ≤ 500) ∧
    parseDate "2030-01-01" = some ⟨2030, 1, 1⟩ ∧
    parseDate "2030-02-01" = some ⟨2030, 2, 1⟩ ∧
    Date.lt ⟨2030, 1, 1⟩ ⟨2030, 2, 1⟩ = true ∧
    (create_announcement ["alice"] [] (some "alice")
        ⟨"m", "2030-01-01", some "2030-02-01"⟩
        ⟨"0123456789abcdef01234567"⟩ "t" =
      (.error (.http 400 "Start date must be before expiration date"),
        []) ∧
     ∀ h : Option String, ∃ e,
       create_announcement ["alice"] [] h
          ⟨"m", "2030-01-01", some "2030-02-01"⟩
          ⟨"0123456789abcdef01234567"⟩ "t" = (.error e, [])) :=
  ⟨by decide, by decide, rfl, rfl, rfl,
    C2_amended ["alice"] [] "alice" ⟨"m", "2030-01-01", some "2030-02-01"⟩
      ⟨"0123456789abcdef01234567"⟩ "t" "2030-02-01" ⟨2030, 1, 1⟩
      ⟨2030, 2, 1⟩ (by decide) (by decide) rfl rfl rfl rfl⟩

/-- Claim C3, counterexample: an update request carrying both a malformed
identifier (`"xyz"`) and invalid dates (start after expiration) is
rejected with the date-ordering error, not the malformed-identifier
error: dates are validated before the identifier is parsed. -/
theorem C3_counterexample :
    (update_announcement ["alice"] [] "xyz" (some "alice")
        ⟨"m", "2030-01-01", some "2030-02-01"⟩).1 =
      .error (.http 400 "Start date must be before expiration date") ∧
    ApiError.http 400 "Start date must be before expiration date" ≠
      ApiError.http 400 "Invalid announcement ID" :=
  ⟨rfl, by decide⟩

/-- Claim C3, amended: update validation order is identity check, then
date format and ordering, then identifier well-formedness
(`InvalidInput` if unparseable), then existence (`NotFound`); for a
request with both a malformed identifier and invalid dates, the date
failure is the one detected first (both surface as status 400). -/
theorem C3_amended (teachers : TeacherDirectory) (store : Store)
    (idStr : String) (u : String) (body : AnnouncementUpdate) (e : ApiError)
    (hmem : u ∈ teachers)
    (hvb : validBody body.message body.expiration_date body.start_date
      = true) :
    (validate_dates body.expiration_date body.start_date = .error e →
      update_announcement teachers store idStr (some u) body =
        (.error e, store)) ∧
    (validate_dates body.expiration_date body.start_date = .ok () →
      ObjectId.parse idStr = none →
      update_announcement teachers store idStr (some u) body =
        (.error (.http 400 "Invalid announcement ID"), store)) ∧
    (validate_dates body.expiration_date body.start_date = .ok () →
      ∀ oid, ObjectId.parse idStr = some oid →
      store.find? (fun d => d._id == oid) = none →
      update_announcement teachers store idStr (some u) body =
        (.error (.http 404 "Announcement not found"), store)) := by
  refine ⟨?_, ?_, ?_⟩
  · intro hvd
    simp [update_announcement, verify_teacher, if_pos hmem, hvb, hvd]
  · intro hvd hid
    simp [update_announcement, verify_teacher, if_pos hmem, hvb, hvd, hid]
  · intro hvd oid hid hfind
    simp [update_announcement, verify_teacher, if_pos hmem, hvb, hvd, hid,
      hfind]

theorem C3_amended_witness :
    ("alice" : String) ∈ ["alice"] ∧
    validBody "m" "2030-01-01" (some "2030-02-01") = true ∧
    validate_dates "2030-01-01" (some "2030-02-01") =
      .error (.http 400 "Start date must be before expiration date") ∧
    update_announcement ["alice"] [] "xyz" (some "alice")
        ⟨"m", "2030-01-01", some "2030-02-01"⟩ =
      (.error (.http 400 "Start date must be before expiration date"),
        []) :=
  ⟨by decide, by decide, rfl,
    (C3_amended ["alice"] [] "xyz" "alice"
        ⟨"m", "2030-01-01", some "2030-02-01"⟩
        (.http 400 "Start date must be before expiration date")
        (by decide) (by decide)).1 rfl⟩

end AnnouncementsApi

namespace AnnouncementsApi

/-- Claim C4, counterexample: a delete request with the identity header
absent, a well-formed identifier, and an existing record fails with the
framework's request-validation error (status 422), not with
`Unauthorized` (401): the `X-User-Name` header is declared required, so
its absence never reaches `verify_teacher`. -/
theorem C4_counterexample :
    delete_announcement ["alice"]
        [⟨⟨"0123456789abcdef01234567"⟩, "hello", some none, "2030-01-01",
          "alice", "2025-01-01T00:00:00"⟩]
        "0123456789abcdef01234567" none =
      (.error .validation,
        [⟨⟨"0123456789abcdef01234567"⟩, "hello", some none, "2030-01-01",
          "alice", "2025-01-01T00:00:00"⟩]) ∧
    ApiError.validation.status = 422 ∧
    ApiError.validation ≠ .http 401 "Unauthorized" :=
  ⟨rfl, rfl, by decide⟩

/-- Claim C4, amended: when the caller identity is present but does not
resolve to a record in the teacher directory, list-all, create, update
and delete all fail with `Unauthorized` (401) and modify no state; when
the identity header is absent, they instead fail with a request
validation error (422), also modifying no state. -/
theorem C4_amended (teachers : TeacherDirectory) (store : Store)
    (u : String) (body : AnnouncementCreate) (bodyU : AnnouncementUpdate)
    (idStr : String) (newId : ObjectId) (now : String)
    (hu : u ∉ teachers) :
    get_all_announcements teachers store (some u) =
      .error (.http 401 "Unauthorized") ∧
    create_announcement teachers store (some u) body newId now =
      (.error (.http 401 "Unauthorized"), store) ∧
    update_announcement teachers store idStr (some u) bodyU =
      (.error (.http 401 "Unauthorized"), store) ∧
    delete_announcement teachers store idStr (some u) =
      (.error (.http 401 "Unauthorized"), store) ∧
    get_all_announcements teachers store none = .error .validation ∧
    create_announcement teachers store none body newId now =
      (.error .validation, store) ∧
    update_announcement teachers store idStr none bodyU =
      (.error .validation, store) ∧
    delete_announcement teachers store idStr none =
      (.error .validation, store) := by
  refine ⟨?_, ?_, ?_, ?_, rfl, rfl, rfl, rfl⟩
  · simp [get_all_announcements, verify_teacher, if_neg hu]
  · simp [create_announcement, verify_teacher, if_neg hu]
  · simp [update_announcement, verify_teacher, if_neg hu]
  · simp [delete_announcement, verify_teacher, if_neg hu]

theorem C4_amended_witness :
    ("mallory" : String) ∉ ["alice"] ∧
    get_all_announcements ["alice"] [] (some "mallory") =
      .error (.http 401 "Unauthorized") ∧
    create_announcement ["alice"] [] (some "mallory")
      ⟨"m", "2030-01-01", none⟩ ⟨"0123456789abcdef01234567"⟩ "t" =
      (.error (.http 401 "Unauthorized"), []) ∧
    update_announcement ["alice"] [] "0123456789abcdef01234567"
      (some "mallory") ⟨"m", "2030-01-01", none⟩ =
      (.error (.http 401 "Unauthorized"), []) ∧
    delete_announcement ["alice"] [] "0123456789abcdef01234567"
      (some "mallory") = (.error (.http 401 "Unauthorized"), []) ∧
    get_all_announcements ["alice"] [] none = .error .validation ∧
    create_announcement ["alice"] [] none ⟨"m", "2030-01-01", none⟩
      ⟨"0123456789abcdef01234567"⟩ "t" = (.error .validation, []) ∧
    update_announcement ["alice"] [] "0123456789abcdef01234567" none
      ⟨"m", "2030-01-01", none⟩ = (.error .validation, []) ∧
    delete_announcement ["alice"] [] "0123456789abcdef01234567" none =
      (.error .validation, []) := by
  have h := C4_amended ["alice"] [] "mallory" ⟨"m", "2030-01-01", none⟩
    ⟨"m", "2030-01-01", none⟩ "0123456789abcdef01234567"
    ⟨"0123456789abcdef01234567"⟩ "t" (by decide)
  exact ⟨by decide, h.1, h.2.1, h.2.2.1, h.2.2.2.1, h.2.2.2.2.1,
    h.2.2.2.2.2.1, h.2.2.2.2.2.2.1, h.2.2.2.2.2.2.2⟩

/-- Claim C5: an authenticated update or delete whose target identifier
cannot be parsed as an ObjectId fails with an `InvalidInput` error
(status 400) and never with `NotFound` (404), whatever the store
contents; neither call modifies the store. -/
theorem C5_malformed_id (teachers : TeacherDirectory) (store : Store)
    (idStr : String) (u : String) (body : AnnouncementUpdate)
    (hmem : u ∈ teachers)
    (hvb : validBody body.message body.expiration_date body.start_date
      = true)
    (hid : ObjectId.parse idStr = none) :
    (∃ d, update_announcement teachers store idStr (some u) body =
      (.error (.http 400 d), store)) ∧
    (∀ d, (update_announcement teachers store idStr (some u) body).1 ≠
      .error (.http 404 d)) ∧
    delete_announcement teachers store idStr (some u) =
      (.error (.http 400 "Invalid announcement ID"), store) ∧
    (∀ d, (delete_announcement teachers store idStr (some u)).1 ≠
      .error (.http 404 d)) := by
  have hupd : ∃ d, update_announcement teachers store idStr (some u) body =
      (.error (.http 400 d), store) := by
    cases hvd : validate_dates body.expiration_date body.start_date with
    | error e =>
      obtain ⟨d, rfl⟩ := validate_dates_error_400 hvd
      exact ⟨d, by simp [update_announcement, verify_teacher, if_pos hmem,
        hvb, hvd]⟩
    | ok v =>
      cases v
      exact ⟨"Invalid announcement ID",
        by simp [update_announcement, verify_teacher, if_pos hmem, hvb,
          hvd, hid]⟩
  have hdel : delete_announcement teachers store idStr (some u) =
      (.error (.http 400 "Invalid announcement ID"), store) := by
    simp [delete_announcement, verify_teacher, if_pos hmem, hid]
  refine ⟨hupd, ?_, hdel, ?_⟩
  · obtain ⟨d, hd⟩ := hupd
    intro d' hne
    rw [hd] at hne
    simp at hne
  · intro d' hne
    rw [hdel] at hne
    simp at hne

theorem C5_malformed_id_witness :
    ("alice" : String) ∈ ["alice"] ∧
    validBody "m" "2030-01-01" none = true ∧
    ObjectId.parse "xyz" = none ∧
    ((∃ d, update_announcement ["alice"] [] "xyz" (some "alice")
        ⟨"m", "2030-01-01", none⟩ = (.error (.http 400 d), [])) ∧
     (∀ d, (update_announcement ["alice"] [] "xyz" (some "alice")
        ⟨"m", "2030-01-01", none⟩).1 ≠ .error (.http 404 d)) ∧
     delete_announcement ["alice"] [] "xyz" (some "alice") =
       (.error (.http 400 "Invalid announcement ID"), []) ∧
     (∀ d, (delete_announcement ["alice"] [] "xyz" (some "alice")).1 ≠
       .error (.http 404 d))) :=
  ⟨by decide, by decide, rfl,
    C5_malformed_id ["alice"] [] "xyz" "alice" ⟨"m", "2030-01-01", none⟩
      (by decide) (by decide) rfl⟩

end AnnouncementsApi

namespace AnnouncementsApi

theorem deleteFirst_any_false (oid : ObjectId) :
    ∀ store : Store, store.countP (fun d => d._id == oid) = 1 →
      (deleteFirst store oid).any (fun d => d._id == oid) = false
  | [], h => by simp at h
  | d :: ds, h => by
    by_cases hd : (d._id == oid) = true
    · simp [List.countP_cons, hd] at h
      have hstep : deleteFirst (d :: ds) oid = ds := by
        simp [deleteFirst, hd]
      rw [hstep, List.any_eq_false]
      intro x hx
      simpa using h x hx
    · have hdF : (d._id == oid) = false := by simpa using hd
      have h' : ds.countP (fun x => x._id == oid) = 1 := by
        rw [List.countP_cons, hdF] at h
        simpa using h
      have hstep : deleteFirst (d :: ds) oid = d :: deleteFirst ds oid := by
        simp [deleteFirst, hdF]
      rw [hstep, List.any_eq_false]
      intro x hx
      rcases List.mem_cons.mp hx with rfl | hx'
      · simpa using hdF
      · have hrec := deleteFirst_any_false oid ds h'
        rw [List.any_eq_false] at hrec
        exact hrec x hx'

theorem countP_one_any (oid : ObjectId) (store : Store)
    (h : store.countP (fun d => d._id == oid) = 1) :
    store.any (fun d => d._id == oid) = true := by
  rw [List.any_eq_true]
  have : 0 < store.countP (fun d => d._id == oid) := by omega
  obtain ⟨a, ha, hp⟩ := List.countP_pos_iff.mp this
  exact ⟨a, ha, hp⟩

/-- Claim C6: for an authenticated teacher, a well-formed identifier that
matches no stored record makes both update and delete fail with
`NotFound` and leave the store unchanged; and when exactly one record
matches, deleting it twice has the first call succeed (removing the
record) and the second call fail with `NotFound`. -/
theorem C6_not_found (teachers : TeacherDirectory) (store : Store)
    (idStr : String) (u : String) (body : AnnouncementUpdate)
    (oid : ObjectId)
    (hmem : u ∈ teachers)
    (hvb : validBody body.message body.expiration_date body.start_date
      = true)
    (hvd : validate_dates body.expiration_date body.start_date = .ok ())
    (hid : ObjectId.parse idStr = some oid) :
    ((∀ d ∈ store, (d._id == oid) = false) →
      update_announcement teachers store idStr (some u) body =
        (.error (.http 404 "Announcement not found"), store) ∧
      delete_announcement teachers store idStr (some u) =
        (.error (.http 404 "Announcement not found"), store)) ∧
    (store.countP (fun d => d._id == oid) = 1 →
      delete_announcement teachers store idStr (some u) =
        (.ok "Announcement deleted successfully", deleteFirst store oid) ∧
      delete_announcement teachers (deleteFirst store oid) idStr (some u) =
        (.error (.http 404 "Announcement not found"),
          deleteFirst store oid)) := by
  constructor
  · intro habs
    have hfind : store.find? (fun d => d._id == oid) = none := by
      rw [List.find?_eq_none]
      intro x hx
      simpa using habs x hx
    have hany : store.any (fun d => d._id == oid) = false := by
      rw [List.any_eq_false]
      intro x hx
      simpa using habs x hx
    constructor
    · simp [update_announcement, verify_teacher, if_pos hmem, hvb, hvd,
        hid, hfind]
    · simp [delete_announcement, verify_teacher, if_pos hmem, hid, hany]
  · intro hcount
    constructor
    · simp [delete_announcement, verify_teacher, if_pos hmem, hid,
        countP_one_any oid store hcount]
    · simp [delete_announcement, verify_teacher, if_pos hmem, hid,
        deleteFirst_any_false oid store hcount]

theorem C6_not_found_witness :
    ("alice" : String) ∈ ["alice"] ∧
    validBody "m" "2030-01-01" none = true ∧
    validate_dates "2030-01-01" none = .ok () ∧
    ObjectId.parse "0123456789abcdef01234567" =
      some ⟨"0123456789abcdef01234567"⟩ ∧
    (List.countP (fun d => d._id == (⟨"0123456789abcdef01234567"⟩ : ObjectId))
      [(⟨⟨"0123456789abcdef01234567"⟩, "hello", some none, "2030-01-01",
        "alice", "2025-01-01T00:00:00"⟩ : AnnouncementDoc)] = 1) ∧
    (delete_announcement ["alice"]
        [⟨⟨"0123456789abcdef01234567"⟩, "hello", some none, "2030-01-01",
          "alice", "2025-01-01T00:00:00"⟩]
        "0123456789abcdef01234567" (some "alice") =
      (.ok "Announcement deleted successfully",
        deleteFirst
          [⟨⟨"0123456789abcdef01234567"⟩, "hello", some none, "2030-01-01",
            "alice", "2025-01-01T00:00:00"⟩]
          ⟨"0123456789abcdef01234567"⟩) ∧
     delete_announcement ["alice"]
        (deleteFirst
          [⟨⟨"0123456789abcdef01234567"⟩, "hello", some none, "2030-01-01",
            "alice", "2025-01-01T00:00:00"⟩]
          ⟨"0123456789abcdef01234567"⟩)
        "0123456789abcdef01234567" (some "alice") =
      (.error (.http 404 "Announcement not found"),
        deleteFirst
          [⟨⟨"0123456789abcdef01234567"⟩, "hello", some none, "2030-01-01",
            "alice", "2025-01-01T00:00:00"⟩]
          ⟨"0123456789abcdef01234567"⟩)) :=
  ⟨by decide, by decide, rfl, rfl, by decide,
    (C6_not_found ["alice"]
      [⟨⟨"0123456789abcdef01234567"⟩, "hello", some none, "2030-01-01",
        "alice", "2025-01-01T00:00:00"⟩]
      "0123456789abcdef01234567" "alice" ⟨"m", "2030-01-01", none⟩
      ⟨"0123456789abcdef01234567"⟩ (by decide) (by decide) rfl rfl).2
      (by decide)⟩

theorem find?_updateFirst (oid : ObjectId)
    (f : AnnouncementDoc → AnnouncementDoc)
    (hf : ∀ x, (f x)._id = x._id) :
    ∀ (store : Store) (d : AnnouncementDoc),
      store.find? (fun x => x._id == oid) = some d →
      (updateFirst store oid f).find? (fun x => x._id == oid) =
        some (f d)
  | [], d, h => by simp at h
  | e :: es, d, h => by
    by_cases he : (e._id == oid) = true
    · have h' : e = d := by simpa [List.find?, he] using h
      subst h'
      have hfe : ((f e)._id == oid) = true := by rw [hf e]; exact he
      have hstep : updateFirst (e :: es) oid f = f e :: es := by
        simp [updateFirst, he]
      rw [hstep]
      simp [List.find?, hfe]
    · have heF : (e._id == oid) = false := by simpa using he
      have h' : es.find? (fun x => x._id == oid) = some d := by
        simpa [List.find?, heF] using h
      have hstep : updateFirst (e :: es) oid f = e :: updateFirst es oid f := by
        simp [updateFirst, heF]
      rw [hstep]
      rw [show List.find? (fun x => x._id == oid)
            (e :: updateFirst es oid f) =
          List.find? (fun x => x._id == oid) (updateFirst es oid f) from
        by simp [List.find?, heF]]
      exact find?_updateFirst oid f hf es d h'

/-- Claim C7: a successful update overwrites exactly `message`,
`start_date` and `expiration_date` of the matched record, leaves its
`_id`, `created_by` and `created_at` unchanged, stores the rewritten
record, and returns it (with the identifier rendered as a string). -/
theorem C7_update_frame (teachers : TeacherDirectory) (store : Store)
    (idStr : String) (u : String) (body : AnnouncementUpdate)
    (oid : ObjectId) (d : AnnouncementDoc)
    (hmem : u ∈ teachers)
    (hvb : validBody body.message body.expiration_date body.start_date
      = true)
    (hvd : validate_dates body.expiration_date body.start_date = .ok ())
    (hid : ObjectId.parse idStr = some oid)
    (hfind : store.find? (fun x => x._id == oid) = some d) :
    update_announcement teachers store idStr (some u) body =
      (.ok (renderDoc (applySet body d)),
        updateFirst store oid (applySet body)) ∧
    (applySet body d)._id = d._id ∧
    (applySet body d).created_by = d.created_by ∧
    (applySet body d).created_at = d.created_at ∧
    (applySet body d).message = body.message ∧
    (applySet body d).start_date = some body.start_date ∧
    (applySet body d).expiration_date = body.expiration_date := by
  have hres := find?_updateFirst oid (applySet body) (fun _ => rfl)
    store d hfind
  exact ⟨by simp [update_announcement, verify_teacher, if_pos hmem, hvb,
      hvd, hid, hfind, hres],
    rfl, rfl, rfl, rfl, rfl, rfl⟩

theorem C7_update_frame_witness :
    ("alice" : String) ∈ ["alice"] ∧
    validBody "new" "2031-12-31" none = true ∧
    validate_dates "2031-12-31" none = .ok () ∧
    ObjectId.parse "0123456789abcdef01234567" =
      some ⟨"0123456789abcdef01234567"⟩ ∧
    (List.find? (fun x => x._id == (⟨"0123456789abcdef01234567"⟩ : ObjectId))
        [(⟨⟨"0123456789abcdef01234567"⟩, "hello", some (some "2029-01-01"),
          "2030-01-01", "alice", "2025-01-01T00:00:00"⟩ : AnnouncementDoc)] =
      some ⟨⟨"0123456789abcdef01234567"⟩, "hello", some (some "2029-01-01"),
        "2030-01-01", "alice", "2025-01-01T00:00:00"⟩) ∧
    (update_announcement ["alice"]
        [⟨⟨"0123456789abcdef01234567"⟩, "hello", some (some "2029-01-01"),
          "2030-01-01", "alice", "2025-01-01T00:00:00"⟩]
        "0123456789abcdef01234567" (some "alice")
        ⟨"new", "2031-12-31", none⟩ =
      (.ok (renderDoc (applySet ⟨"new", "2031-12-31", none⟩
          ⟨⟨"0123456789abcdef01234567"⟩, "hello", some (some "2029-01-01"),
            "2030-01-01", "alice", "2025-01-01T00:00:00"⟩)),
        updateFirst
          [⟨⟨"0123456789abcdef01234567"⟩, "hello", some (some "2029-01-01"),
            "2030-01-01", "alice", "2025-01-01T00:00:00"⟩]
          ⟨"0123456789abcdef01234567"⟩
          (applySet ⟨"new", "2031-12-31", none⟩))) :=
  ⟨by decide, by decide, rfl, rfl, by decide,
    (C7_update_frame ["alice"]
      [⟨⟨"0123456789abcdef01234567"⟩, "hello", some (some "2029-01-01"),
        "2030-01-01", "alice", "2025-01-01T00:00:00"⟩]
      "0123456789abcdef01234567" "alice" ⟨"new", "2031-12-31", none⟩
      ⟨"0123456789abcdef01234567"⟩
      ⟨⟨"0123456789abcdef01234567"⟩, "hello", some (some "2029-01-01"),
        "2030-01-01", "alice", "2025-01-01T00:00:00"⟩
      (by decide) (by decide) rfl rfl (by decide)).1⟩

end AnnouncementsApi

namespace AnnouncementsApi

/-- Claim C8: a create, update or delete request that fails (any
validation error, authentication error, or not-found) leaves the
announcement store exactly as it was: no partial writes. -/
theorem C8_no_mutation_on_failure (teachers : TeacherDirectory)
    (store : Store) (h : Option String) (body : AnnouncementCreate)
    (bodyU : AnnouncementUpdate) (idStr : String) (newId : ObjectId)
    (now : String) (e1 e2 e3 : ApiError) :
    ((create_announcement teachers store h body newId now).1 = .error e1 →
      (create_announcement teachers store h body newId now).2 = store) ∧
    ((update_announcement teachers store idStr h bodyU).1 = .error e2 →
      (update_announcement teachers store idStr h bodyU).2 = store) ∧
    ((delete_announcement teachers store idStr h).1 = .error e3 →
      (delete_announcement teachers store idStr h).2 = store) := by
  refine ⟨?_, ?_, ?_⟩
  · cases h with
    | none => intro _; rfl
    | some u =>
      by_cases hu : u ∈ teachers
      · by_cases hvb : validBody body.message body.expiration_date
            body.start_date = true
        · cases hvd : validate_dates body.expiration_date body.start_date
            with
          | error e => simp [create_announcement, verify_teacher,
              if_pos hu, hvb, hvd]
          | ok v =>
            cases v
            simp [create_announcement, verify_teacher, if_pos hu, hvb, hvd]
        · simp [create_announcement, verify_teacher, if_pos hu, hvb]
      · simp [create_announcement, verify_teacher, if_neg hu]
  · cases h with
    | none => intro _; rfl
    | some u =>
      by_cases hu : u ∈ teachers
      · by_cases hvb : validBody bodyU.message bodyU.expiration_date
            bodyU.start_date = true
        · cases hvd : validate_dates bodyU.expiration_date bodyU.start_date
            with
          | error e => simp [update_announcement, verify_teacher,
              if_pos hu, hvb, hvd]
          | ok v =>
            cases v
            cases hid : ObjectId.parse idStr with
            | none => simp [update_announcement, verify_teacher,
                if_pos hu, hvb, hvd, hid]
            | some oid =>
              cases hfd : store.find? (fun d => d._id == oid) with
              | none => simp [update_announcement, verify_teacher,
                  if_pos hu, hvb, hvd, hid, hfd]
              | some d =>
                have hres := find?_updateFirst oid (applySet bodyU)
                  (fun _ => rfl) store d hfd
                simp [update_announcement, verify_teacher, if_pos hu,
                  hvb, hvd, hid, hfd, hres]
        · simp [update_announcement, verify_teacher, if_pos hu, hvb]
      · simp [update_announcement, verify_teacher, if_neg hu]
  · cases h with
    | none => intro _; rfl
    | some u =>
      by_cases hu : u ∈ teachers
      · cases hid : ObjectId.parse idStr with
        | none => simp [delete_announcement, verify_teacher, if_pos hu,
            hid]
        | some oid =>
          by_cases hany : store.any (fun d => d._id == oid) = true
          · simp [delete_announcement, verify_teacher, if_pos hu, hid,
              hany]
          · have hanyF : store.any (fun d => d._id == oid) = false := by
              simpa using hany
            simp [delete_announcement, verify_teacher, if_pos hu, hid,
              hanyF]
      · simp [delete_announcement, verify_teacher, if_neg hu]

theorem C8_no_mutation_on_failure_witness :
    ((create_announcement ["alice"] [] (some "mallory")
        ⟨"m", "2030-01-01", none⟩ ⟨"0123456789abcdef01234567"⟩ "t").1 =
      .error (.http 401 "Unauthorized") ∧
     (create_announcement ["alice"] [] (some "mallory")
        ⟨"m", "2030-01-01", none⟩ ⟨"0123456789abcdef01234567"⟩ "t").2 =
      []) ∧
    ((update_announcement ["alice"] [] "xyz" (some "mallory")
        ⟨"m", "2030-01-01", none⟩).1 = .error (.http 401 "Unauthorized") ∧
     (update_announcement ["alice"] [] "xyz" (some "mallory")
        ⟨"m", "2030-01-01", none⟩).2 = []) ∧
    ((delete_announcement ["alice"] [] "xyz" (some "mallory")).1 =
      .error (.http 401 "Unauthorized") ∧
     (delete_announcement ["alice"] [] "xyz" (some "mallory")).2 = []) :=
  ⟨⟨rfl, (C8_no_mutation_on_failure ["alice"] [] (some "mallory")
      ⟨"m", "2030-01-01", none⟩ ⟨"m", "2030-01-01", none⟩ "xyz"
      ⟨"0123456789abcdef01234567"⟩ "t" (.http 401 "Unauthorized")
      (.http 401 "Unauthorized") (.http 401 "Unauthorized")).1 rfl⟩,
   ⟨rfl, (C8_no_mutation_on_failure ["alice"] [] (some "mallory")
      ⟨"m", "2030-01-01", none⟩ ⟨"m", "2030-01-01", none⟩ "xyz"
      ⟨"0123456789abcdef01234567"⟩ "t" (.http 401 "Unauthorized")
      (.http 401 "Unauthorized") (.http 401 "Unauthorized")).2.1 rfl⟩,
   ⟨rfl, (C8_no_mutation_on_failure ["alice"] [] (some "mallory")
      ⟨"m", "2030-01-01", none⟩ ⟨"m", "2030-01-01", none⟩ "xyz"
      ⟨"0123456789abcdef01234567"⟩ "t" (.http 401 "Unauthorized")
      (.http 401 "Unauthorized") (.http 401 "Unauthorized")).2.2 rfl⟩⟩

/-- Claim C9: for an authenticated teacher, the list-all operation
returns every announcement in the store (a permutation of the rendered
store, no date filtering), ordered by `created_at` descending (newest
first). -/
theorem C9_list_all_sorted (teachers : TeacherDirectory) (store : Store)
    (u : String) (hmem : u ∈ teachers) :
    ∃ l, get_all_announcements teachers store (some u) = .ok l ∧
      List.Perm l (store.map renderDoc) ∧
      l.Pairwise (fun x y => strLe y.created_at x.created_at = true) := by
  refine ⟨(List.insertionSort createdAtDesc store).map renderDoc, ?_, ?_, ?_⟩
  · simp [get_all_announcements, verify_teacher, if_pos hmem]
  · exact (List.perm_insertionSort createdAtDesc store).map renderDoc
  · have hs := List.sorted_insertionSort createdAtDesc store
    exact List.Pairwise.map renderDoc (fun a b hab => hab) hs

theorem C9_list_all_sorted_witness :
    ("alice" : String) ∈ ["alice"] ∧
    ∃ l, get_all_announcements ["alice"]
        [⟨⟨"0123456789abcdef01234567"⟩, "hello", some none, "2030-01-01",
          "alice", "2025-01-01T00:00:00"⟩,
         ⟨⟨"aaaa56789abcdef01234567b"⟩, "late", some (some "2031-01-01"),
          "2032-01-01", "alice", "2026-01-01T00:00:00"⟩]
        (some "alice") = .ok l ∧
      List.Perm l (List.map renderDoc
        [⟨⟨"0123456789abcdef01234567"⟩, "hello", some none, "2030-01-01",
          "alice", "2025-01-01T00:00:00"⟩,
         ⟨⟨"aaaa56789abcdef01234567b"⟩, "late", some (some "2031-01-01"),
          "2032-01-01", "alice", "2026-01-01T00:00:00"⟩]) ∧
      l.Pairwise (fun x y => strLe y.created_at x.created_at = true) :=
  ⟨by decide,
    C9_list_all_sorted ["alice"]
      [⟨⟨"0123456789abcdef01234567"⟩, "hello", some none, "2030-01-01",
        "alice", "2025-01-01T00:00:00"⟩,
       ⟨⟨"aaaa56789abcdef01234567b"⟩, "late", some (some "2031-01-01"),
        "2032-01-01", "alice", "2026-01-01T00:00:00"⟩]
      "alice" (by decide)⟩

/-- Claim C10: a create request that omits `start_date` stores the
record with the `start_date` field present but null (`some none`, not
an absent field), `doc.get` reads that null as `None`, and the
active-list filter therefore treats the record exactly like one with no
start date: it is listed iff the current date is within the expiration
bound. -/
theorem C10_null_start_date (teachers : TeacherDirectory) (store : Store)
    (u : String) (msg exp : String) (newId : ObjectId) (now : String)
    (de : Date)
    (hmem : u ∈ teachers)
    (hmsg : msg.length ≤ 500)
    (hexp : parseDate exp = some de) :
    create_announcement teachers store (some u) ⟨msg, exp, none⟩ newId
        now =
      (.ok (renderDoc ⟨newId, msg, some none, exp, u, now⟩),
        store ++ [⟨newId, msg, some none, exp, u, now⟩]) ∧
    (⟨newId, msg, some none, exp, u, now⟩ : AnnouncementDoc).start_date =
      some none ∧
    (⟨newId, msg, some none, exp, u, now⟩ : AnnouncementDoc).start_date ≠
      none ∧
    fieldGet (⟨newId, msg, some none, exp, u, now⟩ :
      AnnouncementDoc).start_date = none ∧
    ∀ (store₂ : Store) (D : String),
      (⟨newId, msg, some none, exp, u, now⟩ : AnnouncementDoc) ∈ store₂ →
      (renderDoc ⟨newId, msg, some none, exp, u, now⟩ ∈
          get_active_announcements store₂ D ↔ strLe D exp = true) := by
  have hpat := parseDate_pattern hexp
  refine ⟨?_, rfl, by simp, rfl, ?_⟩
  · have hvb : validBody msg exp none = true := by
      simp [validBody, hmsg, hpat]
    have hvd : validate_dates exp none = .ok () := by
      simp [validate_dates, hexp]
    simp [create_announcement, verify_teacher, if_pos hmem, hvb, hvd]
  · intro store₂ D hmem₂
    rw [mem_active_iff hmem₂, startDateOk_iff]
    simp [fieldGet]

theorem C10_null_start_date_witness :
    ("alice" : String) ∈ ["alice"] ∧
    (("Exam Friday" : String).length ≤ 500) ∧
    parseDate "2099-01-01" = some ⟨2099, 1, 1⟩ ∧
    (create_announcement ["alice"] [] (some "alice")
        ⟨"Exam Friday", "2099-01-01", none⟩
        ⟨"0123456789abcdef01234567"⟩ "2025-06-01T00:00:00" =
      (.ok (renderDoc ⟨⟨"0123456789abcdef01234567"⟩, "Exam Friday",
          some none, "2099-01-01", "alice", "2025-06-01T00:00:00"⟩),
        [⟨⟨"0123456789abcdef01234567"⟩, "Exam Friday", some none,
          "2099-01-01", "alice", "2025-06-01T00:00:00"⟩]) ∧
     (⟨⟨"0123456789abcdef01234567"⟩, "Exam Friday", some none,
        "2099-01-01", "alice", "2025-06-01T00:00:00"⟩ :
        AnnouncementDoc).start_date = some none ∧
     (⟨⟨"0123456789abcdef01234567"⟩, "Exam Friday", some none,
        "2099-01-01", "alice", "2025-06-01T00:00:00"⟩ :
        AnnouncementDoc).start_date ≠ none ∧
     fieldGet (⟨⟨"0123456789abcdef01234567"⟩, "Exam Friday", some none,
        "2099-01-01", "alice", "2025-06-01T00:00:00"⟩ :
        AnnouncementDoc).start_date = none ∧
     ∀ (store₂ : Store) (D : String),
       (⟨⟨"0123456789abcdef01234567"⟩, "Exam Friday", some none,
          "2099-01-01", "alice", "2025-06-01T00:00:00"⟩ :
          AnnouncementDoc) ∈ store₂ →
       (renderDoc ⟨⟨"0123456789abcdef01234567"⟩, "Exam Friday", some none,
            "2099-01-01", "alice", "2025-06-01T00:00:00"⟩ ∈
          get_active_announcements store₂ D ↔
        strLe D "2099-01-01" = true)) :=
  ⟨by decide, by decide, rfl,
    C10_null_start_date ["alice"] [] "alice" "Exam Friday" "2099-01-01"
      ⟨"0123456789abcdef01234567"⟩ "2025-06-01T00:00:00" ⟨2099, 1, 1⟩
      (by decide) (by decide) rfl⟩

theorem C1_active_listing_iff_witness :
    ((⟨⟨"0123456789abcdef01234567"⟩, "hello", some none, "2030-01-01",
      "alice", "2025-01-01T00:00:00"⟩ : AnnouncementDoc) ∈
      [(⟨⟨"0123456789abcdef01234567"⟩, "hello", some none, "2030-01-01",
        "alice", "2025-01-01T00:00:00"⟩ : AnnouncementDoc)]) ∧
    (renderDoc ⟨⟨"0123456789abcdef01234567"⟩, "hello", some none,
        "2030-01-01", "alice", "2025-01-01T00:00:00"⟩ ∈
        get_active_announcements
          [⟨⟨"0123456789abcdef01234567"⟩, "hello", some none,
            "2030-01-01", "alice", "2025-01-01T00:00:00"⟩]
          "2029-06-15" ↔
      (strLe "2029-06-15" "2030-01-01" = true ∧
        (fieldGet (some (none : Option String)) = none ∨
          ∃ s, fieldGet (some (none : Option String)) = some s ∧
            strLe s "2029-06-15" = true))) :=
  ⟨by decide,
    C1_active_listing_iff
      [⟨⟨"0123456789abcdef01234567"⟩, "hello", some none, "2030-01-01",
        "alice", "2025-01-01T00:00:00"⟩]
      "2029-06-15"
      ⟨⟨"0123456789abcdef01234567"⟩, "hello", some none, "2030-01-01",
        "alice", "2025-01-01T00:00:00"⟩
      (by decide)⟩

end AnnouncementsApi
